import Mathlib

/-!
A shallow embedding of `scalyr_agent/builtin_monitors/linux_process_metrics.py`.

Pure fragments of the Python code become Lean functions; the stateful reader
and monitor objects become explicit state records with step functions.  File
system and OS interactions (`open`, `os.kill`, the clock) are passed in as
explicit environment parameters.  Python exceptions are modelled with `Except`
or an explicit `raised` field; Python `int` is modelled by `Int` (with `int()`
truncation of a nonnegative-over-positive float quotient realised as
truncating division).
-/

namespace LinuxProcessMetrics

/-- Python exceptions that the embedded code can raise. -/
inductive PyErr where
  | indexError
  | valueError
  | typeError
  | ioError (errno : Nat)
deriving DecidableEq

/-- Python `lst[i]` for a non-negative index: `IndexError` when out of bounds. -/
def pyIndex {α : Type} (l : List α) (i : Nat) : Except PyErr α :=
  match l.get? i with
  | some x => Except.ok x
  | none => Except.error PyErr.indexError

/-- Sequencing of fallible Python steps: an exception propagates past the
rest of the computation. -/
def pyBind {α β : Type} (x : Except PyErr α) (f : α → Except PyErr β) : Except PyErr β :=
  match x with
  | Except.ok a => f a
  | Except.error e => Except.error e

@[simp] theorem pyBind_ok {α β : Type} (a : α) (f : α → Except PyErr β) :
    pyBind (Except.ok a) f = f a := rfl

@[simp] theorem pyBind_error {α β : Type} (e : PyErr) (f : α → Except PyErr β) :
    pyBind (Except.error e) f = Except.error e := rfl

/-- Value of a string of decimal digits. -/
def digitsToNat (s : List Char) : Nat :=
  s.foldl (fun a c => a * 10 + (c.toNat - 48)) 0

/-- Python `int(s)` on the whitespace-free tokens produced by `str.split()`:
an optional minus sign followed by one or more digits; anything else raises
`ValueError`. -/
def parsePyInt (s : List Char) : Except PyErr Int :=
  match s with
  | '-' :: rest =>
      if rest ≠ [] ∧ rest.all Char.isDigit then Except.ok (-(digitsToNat rest : Int))
      else Except.error PyErr.valueError
  | _ =>
      if s ≠ [] ∧ s.all Char.isDigit then Except.ok (digitsToNat s : Int)
      else Except.error PyErr.valueError

/-- Helper for `pySplit`: accumulates the current (reversed) token. -/
def pySplitGo : List Char → List Char → List (List Char)
  | cur, [] => if cur.isEmpty then [] else [cur.reverse]
  | cur, c :: rest =>
      if c = ' ' ∨ c = '\t' ∨ c = '\n' ∨ c = '\r' then
        if cur.isEmpty then pySplitGo [] rest else cur.reverse :: pySplitGo [] rest
      else pySplitGo (c :: cur) rest

/-- Python `s.split()` (no argument): split on runs of whitespace, dropping
empty tokens.  The whitespace characters occurring in proc files are space,
tab, newline and carriage return. -/
def pySplit (s : List Char) : List (List Char) :=
  pySplitGo [] s

/-- Does `pat` occur at the head of `s`? -/
def headIsPat : List Char → List Char → Bool
  | [], _ => true
  | _ :: _, [] => false
  | p :: ps, c :: cs => p == c && headIsPat ps cs

/-- Python `s.find(pat)`: index of the first occurrence of `pat` in `s`,
`-1` when there is none. -/
def findSub (pat : List Char) : List Char → Int
  | [] => if headIsPat pat [] then 0 else -1
  | c :: rest =>
      if headIsPat pat (c :: rest) then 0
      else
        let r := findSub pat rest
        if r = -1 then -1 else r + 1

/-- Python `s[i:]` for an `Int` index: a negative index counts from the end,
clamped at the start of the string. -/
def pySliceFrom (l : List Char) (i : Int) : List Char :=
  if 0 ≤ i then l.drop i.toNat
  else l.drop (l.length - (-i).toNat)

/-- Python file iteration / `readlines()`: split into lines, each keeping its
trailing newline. -/
def pyLines : List Char → List (List Char)
  | [] => []
  | c :: rest =>
      if c = '\n' then ['\n'] :: pyLines rest
      else
        match pyLines rest with
        | [] => [[c]]
        | l :: ls => (c :: l) :: ls

/-- Python `readlines()` on the full contents of a file. -/
def pyReadlines (contents : String) : List (List Char) :=
  pyLines contents.data

/-- Python `pattern % pid` for the `/proc/%ld/...` path patterns used by the
readers. -/
def pyFormat (pat : String) (pid : Int) : String :=
  (pat.replace "%ld" (toString pid)).replace "%d" (toString pid)

/-- A metric value.  The readers emit integers everywhere except `app.nice`,
which the source wraps in `float(...)`; the proc nice field is an integer
literal, on which `float()` is exact, so we keep the integer and tag it. -/
inductive MValue where
  | mInt (i : Int)
  | mFloat (i : Int)
deriving DecidableEq

/-- One emitted metric, as produced by `BaseReader.print_sample`: the metric
name, its value, the monitor id (published as the `app` extra field) and the
optional `type` extra field. -/
structure Metric where
  name : String
  value : MValue
  app : String
  typeTag : Option String
deriving DecidableEq

/-- Result of `open(filename, "r")` in the environment: the file's contents,
or an `IOError` with the given errno. -/
inductive OpenResult where
  | ok (contents : String)
  | err (errno : Nat)

/-- The mutable state of a `BaseReader` (and of its subclasses): the bound
pid, the monitor id, the `/proc` path pattern, the open handle (modelled by
the contents read at open time), the last-collection timestamp and the
`failed` flag. -/
structure ReaderState where
  pid : Int
  monitorId : String
  filePattern : String
  file : Option String
  timestamp : Option Nat
  failed : Bool
deriving DecidableEq

/-- Embeds `BaseReader.__init__`: no open handle, no timestamp, `failed = False`. -/
def initReader (pid : Int) (monitorId : String) (filePattern : String) : ReaderState :=
  { pid := pid, monitorId := monitorId, filePattern := filePattern,
    file := none, timestamp := none, failed := false }

/-- The operator-facing message logged on a permission-denied open
(errno 13). -/
def permissionDeniedMsg (filename : String) : String :=
  "The agent does not have permission to read " ++ filename ++
    ".  Maybe you should run it as root."

/-- The operator-facing message logged on a file-not-found open (errno 2). -/
def unsupportedMsg (filename : String) : String :=
  "The agent cannot read " ++ filename ++
    ".  Your system may not support that proc file type"

/-- Everything observable about one `run_single_cycle` call: the post state,
the metrics emitted through the logger, the operator-facing error messages
logged, and the exception propagated to the caller, if any. -/
structure CycleResult where
  st : ReaderState
  metrics : List Metric
  logs : List String
  raised : Option PyErr
deriving DecidableEq

/-- Embeds `BaseReader.run_single_cycle`.  `gather` is the subclass's
`gather_sample` over the handle's contents (it returns the metrics it prints,
or the exception it raises); `env` answers `open(filename)`; `now` is
`int(time.time())`.  The timestamp is recorded first; a failed reader then
returns immediately.  Otherwise, if no handle is open, open it: errno 13 and
errno 2 log one message each and set `failed`; any other errno propagates.
If a handle is (now) open, seek to the start and gather from it. -/
def runSingleCycle (gather : String → Except PyErr (List Metric))
    (env : String → OpenResult) (now : Nat) (st0 : ReaderState) : CycleResult :=
  let st1 := { st0 with timestamp := some now }
  if st1.failed then ⟨st1, [], [], none⟩
  else
    let filename := pyFormat st1.filePattern st1.pid
    match st1.file with
    | some contents =>
        match gather contents with
        | Except.ok ms => ⟨st1, ms, [], none⟩
        | Except.error e => ⟨st1, [], [], some e⟩
    | none =>
        match env filename with
        | OpenResult.ok contents =>
            let st2 := { st1 with file := some contents }
            match gather contents with
            | Except.ok ms => ⟨st2, ms, [], none⟩
            | Except.error e => ⟨st2, [], [], some e⟩
        | OpenResult.err n =>
            if n = 13 then
              ⟨{ st1 with failed := true }, [], [permissionDeniedMsg filename], none⟩
            else if n = 2 then
              ⟨{ st1 with failed := true }, [], [unsupportedMsg filename], none⟩
            else
              ⟨st1, [], [], some (PyErr.ioError n)⟩

/-- Embeds `BaseReader.close`: sets `failed` for the duration of the close attempt
and clears it once the handle is released (releasing an in-memory handle
cannot fail in this model), then drops the handle in the `finally` block. -/
def readerClose (st : ReaderState) : ReaderState :=
  { st with failed := false, file := none }

/-- An operation applied to one reader over its lifetime. -/
inductive ReaderOp where
  | runCycle (gather : String → Except PyErr (List Metric))
      (env : String → OpenResult) (now : Nat)
  | close

/-- Whether the operation is `close`. -/
def ReaderOp.isClose : ReaderOp → Bool
  | ReaderOp.close => true
  | _ => false

/-- Apply one reader operation to the reader's state. -/
def applyOp (st : ReaderState) : ReaderOp → ReaderState
  | ReaderOp.runCycle g env now => (runSingleCycle g env now st).st
  | ReaderOp.close => readerClose st

/-- Apply a sequence of reader operations in order. -/
def applyOps (st : ReaderState) (ops : List ReaderOp) : ReaderState :=
  ops.foldl applyOp st

/-- Embeds `StatReader.__calculate_time_cs`: `int((jiffies * 100.0) / jiffies_per_sec)`.
Python `int()` truncates the float quotient toward zero, which for the exactly
representable quotients of the kernel's tick counts is `Int.tdiv`. -/
def calculate_time_cs (jiffies_per_sec : Int) (jiffies : Int) : Int :=
  Int.tdiv (jiffies * 100) jiffies_per_sec

/-- Embeds `StatReader.calculate_time_ms`: `int((jiffies * 1000.0) / jiffies_per_sec)`. -/
def calculate_time_ms (jiffies_per_sec : Int) (jiffies : Int) : Int :=
  Int.tdiv (jiffies * 1000) jiffies_per_sec

/-- The pattern `") "` searched for by `StatReader.gather_sample`. -/
def statParenPat : List Char := [')', ' ']

/-- Embeds `StatReader.gather_sample` over the contents of `/proc/pid/stat`.
`jiffies_per_sec` is the `SC_CLK_TCK` value read at construction;
`uptimeMs` is the value `__get_uptime_ms()` returns this cycle (it reads the
wall clock and the lazily cached boot time, so it enters as a parameter).
The first line is taken, everything up to and including the first `") "` is
chopped off, the rest is split on whitespace, and the fields at the fixed
positions 11, 12, 19, 16 and 17 are converted and printed. -/
def statGatherSample (jiffies_per_sec : Int) (uptimeMs : Int) (appId : String)
    (contents : String) : Except PyErr (List Metric) :=
  pyBind (pyIndex (pyReadlines contents) 0) fun line0 =>
  let line := pySliceFrom line0 (findSub statParenPat line0 + 2)
  let fields := pySplit line
  pyBind (pyIndex fields 11) fun f11 =>
  pyBind (parsePyInt f11) fun u =>
  pyBind (pyIndex fields 12) fun f12 =>
  pyBind (parsePyInt f12) fun s =>
  pyBind (pyIndex fields 19) fun f19 =>
  pyBind (parsePyInt f19) fun startTicks =>
  pyBind (pyIndex fields 16) fun f16 =>
  pyBind (parsePyInt f16) fun nice =>
  pyBind (pyIndex fields 17) fun f17 =>
  pyBind (parsePyInt f17) fun threads =>
  Except.ok
    [ ⟨"app.cpu", MValue.mInt (calculate_time_cs jiffies_per_sec u), appId, some "user"⟩,
      ⟨"app.cpu", MValue.mInt (calculate_time_cs jiffies_per_sec s), appId, some "system"⟩,
      ⟨"app.uptime", MValue.mInt (uptimeMs - calculate_time_ms jiffies_per_sec startTicks),
        appId, none⟩,
      ⟨"app.nice", MValue.mFloat nice, appId, none⟩,
      ⟨"app.threads", MValue.mInt threads, appId, none⟩ ]

/-- Embeds `IoReader.gather_sample`, one line of the loop body: split the line,
index token 0 (unguarded in the source: an `IndexError` on an all-whitespace
line), and on the four recognized keys parse token 1 and print one metric. -/
def ioLine (appId : String) (x : List Char) : Except PyErr (List Metric) :=
  let fields := pySplit x
  pyBind (pyIndex fields 0) fun f0 =>
  if f0 = "rchar:".data then
    pyBind (pyIndex fields 1) fun f1 => pyBind (parsePyInt f1) fun v =>
      Except.ok [⟨"app.disk.bytes", MValue.mInt v, appId, some "read"⟩]
  else if f0 = "syscr:".data then
    pyBind (pyIndex fields 1) fun f1 => pyBind (parsePyInt f1) fun v =>
      Except.ok [⟨"app.disk.requests", MValue.mInt v, appId, some "read"⟩]
  else if f0 = "wchar:".data then
    pyBind (pyIndex fields 1) fun f1 => pyBind (parsePyInt f1) fun v =>
      Except.ok [⟨"app.disk.bytes", MValue.mInt v, appId, some "write"⟩]
  else if f0 = "syscw:".data then
    pyBind (pyIndex fields 1) fun f1 => pyBind (parsePyInt f1) fun v =>
      Except.ok [⟨"app.disk.requests", MValue.mInt v, appId, some "write"⟩]
  else
    Except.ok []

/-- The `for x in stat_file` loop of `IoReader.gather_sample`: lines are
processed in order and a raised exception aborts the loop. -/
def ioGatherLines (appId : String) : List (List Char) → Except PyErr (List Metric)
  | [] => Except.ok []
  | x :: rest =>
      pyBind (ioLine appId x) fun ms =>
      pyBind (ioGatherLines appId rest) fun more =>
      Except.ok (ms ++ more)

/-- Embeds `IoReader.gather_sample` over the contents of `/proc/pid/io`. -/
def ioGatherSample (appId : String) (contents : String) : Except PyErr (List Metric) :=
  ioGatherLines appId (pyReadlines contents)

/-- Does a line of the io file avoid every exception of `ioLine`: it has a
first token, and when that token is one of the four recognized keys it also
has a second token that parses as an integer? -/
def ioLineOk (x : List Char) : Bool :=
  match pySplit x with
  | [] => false
  | f0 :: rest =>
      if f0 = "rchar:".data ∨ f0 = "syscr:".data ∨ f0 = "wchar:".data ∨ f0 = "syscw:".data then
        match rest with
        | [] => false
        | f1 :: _ => (parsePyInt f1).isOk
      else true

/-- Does a line of the io file start with one of the four recognized keys? -/
def ioRecognized (x : List Char) : Bool :=
  match pySplit x with
  | [] => false
  | f0 :: _ =>
      f0 = "rchar:".data ∨ f0 = "syscr:".data ∨ f0 = "wchar:".data ∨ f0 = "syscw:".data

/-- Result of the existence probe `os.kill(pid, 0)`: success, or an `OSError`
with the given errno. -/
inductive KillResult where
  | ok
  | err (errno : Nat)

/-- Embeds `ProcessMonitor.__is_running`: probe with `os.kill(pid, 0)`; on success
the process runs; on `OSError` the process is reported alive exactly when the
errno differs from 3 (`ESRCH`, no such process) — in particular a
permission-denied probe reports the process as alive. -/
def isRunning (probe : KillResult) : Bool :=
  match probe with
  | KillResult.ok => true
  | KillResult.err n => n != 3

/-- A raw monitor configuration: the values the `_config.get` calls read. -/
structure MonitorConfig where
  id : Option String
  commandline : Option String
  pid : Option String

/-- Errors raised during `ProcessMonitor._initialize`. -/
inductive ConfigError where
  | missingRequiredField
  | badMonitorConfiguration
deriving DecidableEq

/-- The per-monitor state set up by `_initialize` and mutated by the
collection cycle. -/
structure MonitorState where
  monitorId : String
  commandlineMatcher : Option String
  targetPid : Option String
  pid : Option Int
  gathers : List ReaderState
deriving DecidableEq

/-- Embeds `ProcessMonitor._initialize`: `id` is a required field; it is a
`BadMonitorConfiguration` error when `commandline` and `pid` are both
absent. -/
def monitorInitialize (c : MonitorConfig) : Except ConfigError MonitorState :=
  match c.id with
  | none => Except.error ConfigError.missingRequiredField
  | some idv =>
      if c.commandline.isNone ∧ c.pid.isNone then
        Except.error ConfigError.badMonitorConfiguration
      else
        Except.ok { monitorId := idv, commandlineMatcher := c.commandline,
                    targetPid := c.pid, pid := none, gathers := [] }

/-- Embeds `ProcessMonitor.__set_process`: close every gather of the old binding,
then install the new pid; for a live pid construct the three fresh readers
(stat, status, io), otherwise leave the binding empty. -/
def setProcess (ms : MonitorState) (newPid : Option Int) : MonitorState :=
  { ms with
    pid := newPid,
    gathers :=
      match newPid with
      | none => []
      | some p =>
          [ initReader p ms.monitorId "/proc/%ld/stat",
            initReader p ms.monitorId "/proc/%ld/status",
            initReader p ms.monitorId "/proc/%ld/io" ] }

/-- The rebinding phase at the head of `ProcessMonitor.gather_sample`: if a
pid is bound and `__is_running` denies it, unbind; if no pid is bound, bind
whatever `__select_process` returned (`selected`). `probe` answers
`os.kill(pid, 0)` per pid. -/
def monitorRebindPhase (probe : Int → KillResult) (selected : Option Int)
    (ms : MonitorState) : MonitorState :=
  let ms1 :=
    match ms.pid with
    | some p => if isRunning (probe p) then ms else setProcess ms none
    | none => ms
  match ms1.pid with
  | none => setProcess ms1 selected
  | some _ => ms1

/-- The first matching entry of `ps ax -o pid,command` output, in table
order; `reMatch pat cmd` stands for `re.search(pat, cmd) is not None`. -/
def patternSelect (pat : String) (reMatch : String → String → Bool) :
    List (Int × String) → Option Int
  | [] => none
  | (pid, cmd) :: rest =>
      if reMatch pat cmd then some pid else patternSelect pat reMatch rest

/-- Embeds `ProcessMonitor.__select_process`.  In pattern mode the process table
(already parsed into (pid, command) pairs) is scanned for the first match.
In explicit-id mode the sentinel target `"$$"` resolves to the agent's own
pid (`os.getpid()`, passed as `ownPid`) at match time, any other target must
parse as an integer (a `ValueError` propagates), and the pid is returned
exactly when the `os.kill(pid, 0)` probe raises no `OSError`; every probe
failure yields `None`. -/
def selectProcess (matcher : Option String) (targetPid : Option String)
    (reMatch : String → String → Bool) (table : List (Int × String))
    (ownPid : Int) (probe : Int → KillResult) : Except PyErr (Option Int) :=
  match matcher with
  | some pat => Except.ok (patternSelect pat reMatch table)
  | none =>
      match targetPid with
      | none => Except.error PyErr.typeError
      | some tp =>
          pyBind (if tp = "$$" then Except.ok ownPid else parsePyInt tp.data) fun pid =>
          match probe pid with
          | KillResult.ok => Except.ok (some pid)
          | KillResult.err _ => Except.ok none

/-- Round to nearest, halves away from zero, of `num / den`.  Modelled from
the spec's words: the claimed tick-to-time conversion
`round(ticks * 100 / ticksPerSecond)`. -/
def specRoundDiv (num den : Nat) : Nat :=
  (2 * num + den) / (2 * den)

/-! ### Helper lemmas -/

theorem natDivChar (m n : Nat) (hn : 0 < n) : n * (m / n) ≤ m ∧ m < n * (m / n + 1) := by
  constructor
  · calc n * (m / n) = m / n * n := Nat.mul_comm n (m / n)
    _ ≤ m := Nat.div_mul_le_self m n
  · calc m = n * (m / n) + m % n := (Nat.div_add_mod m n).symm
    _ < n * (m / n) + n := Nat.add_lt_add_left (Nat.mod_lt m hn) _
    _ = n * (m / n + 1) := by ring

theorem tdivChar (m n : Nat) (hn : 0 < n) :
    (n : Int) * ((m : Int).tdiv n) ≤ (m : Int) ∧
      (m : Int) < (n : Int) * ((m : Int).tdiv n + 1) := by
  have h1 : (m : Int).tdiv (n : Int) = ((m / n : Nat) : Int) := rfl
  obtain ⟨h2, h3⟩ := natDivChar m n hn
  rw [h1]
  constructor
  · exact_mod_cast h2
  · exact_mod_cast h3

theorem runSingleCycle_failed_stays (g : String → Except PyErr (List Metric))
    (env : String → OpenResult) (now : Nat) (st : ReaderState)
    (h : st.failed = true) : (runSingleCycle g env now st).st.failed = true := by
  simp [runSingleCycle, h]

/-- A concrete reader that has entered the failed state. -/
def failedStatReader : ReaderState :=
  { pid := 1, monitorId := "agent", filePattern := "/proc/%ld/stat",
    file := none, timestamp := none, failed := true }

/-- A concrete monitor state bound to pid 42 with the three standard readers. -/
def boundMonitor : MonitorState :=
  { monitorId := "agent", commandlineMatcher := none, targetPid := some "42",
    pid := some 42,
    gathers := [ initReader 42 "agent" "/proc/%ld/stat",
                 initReader 42 "agent" "/proc/%ld/status",
                 initReader 42 "agent" "/proc/%ld/io" ] }

/-! ### Claim theorems -/

/-- C1, counterexample: at 3 ticks and 200 ticks per second the code's
centisecond conversion truncates `1.5` to `1`, while the claimed
`round(ticks * 100 / ticksPerSecond)` is `2`. -/
theorem tick_conversion_round_counterexample :
    calculate_time_cs 200 3 = 1 ∧ specRoundDiv (3 * 100) 200 = 2 ∧
      calculate_time_cs 200 3 ≠ (specRoundDiv (3 * 100) 200 : Int) := by
  refine ⟨rfl, rfl, ?_⟩
  decide

/-- C1, amended: for every tick count `t` and positive ticks-per-second `hz`,
the conversions truncate rather than round: the centisecond value is the
integer `q` with `hz * q ≤ t * 100 < hz * (q + 1)` (that is,
`⌊t * 100 / hz⌋`), and likewise the millisecond value with factor 1000. -/
theorem tick_conversion_truncates (t hz : Nat) (hhz : 0 < hz) :
    ((hz : Int) * calculate_time_cs hz t ≤ t * 100 ∧
       (t * 100 : Int) < hz * (calculate_time_cs hz t + 1)) ∧
    ((hz : Int) * calculate_time_ms hz t ≤ t * 1000 ∧
       (t * 1000 : Int) < hz * (calculate_time_ms hz t + 1)) := by
  constructor
  · have h := tdivChar (t * 100) hz hhz
    have e : ((t * 100 : Nat) : Int) = (t : Int) * 100 := by push_cast; ring
    rw [e] at h
    simpa [calculate_time_cs] using h
  · have h := tdivChar (t * 1000) hz hhz
    have e : ((t * 1000 : Nat) : Int) = (t : Int) * 1000 := by push_cast; ring
    rw [e] at h
    simpa [calculate_time_ms] using h

theorem tick_conversion_truncates_witness :
    (100 : Int) * calculate_time_cs 100 7 ≤ 7 * 100 :=
  ((tick_conversion_truncates 7 100 (by decide)).1).1

/-- C2, counterexample: the failed flag is not monotone over sequences of
`run_single_cycle` and `close`: `close` resets it to `False` after releasing
the handle, without any rebinding to a new process id. -/
theorem close_resets_failed_counterexample :
    failedStatReader.failed = true ∧
      (applyOps failedStatReader [ReaderOp.close]).failed = false := by
  exact ⟨rfl, rfl⟩

/-- C2, amended: the failed flag is monotone over every sequence of
`run_single_cycle` operations (once true it never becomes false again), but a
`close` resets it to false after successfully releasing the handle; a fresh
reader for a new process id also starts with `failed = False`. -/
theorem failed_monotone_without_close (st : ReaderState) (ops : List ReaderOp)
    (hf : st.failed = true) (hops : ∀ op ∈ ops, op.isClose = false) :
    (applyOps st ops).failed = true := by
  induction ops generalizing st with
  | nil => simpa [applyOps] using hf
  | cons op rest ih =>
      have hop := hops op (List.mem_cons_self op rest)
      have hrest : ∀ o ∈ rest, o.isClose = false :=
        fun o ho => hops o (List.mem_cons_of_mem op ho)
      cases op with
      | close => simp [ReaderOp.isClose] at hop
      | runCycle g env now =>
          have : (applyOp st (ReaderOp.runCycle g env now)).failed = true := by
            simpa [applyOp] using runSingleCycle_failed_stays g env now st hf
          simpa [applyOps, List.foldl_cons] using
            ih (applyOp st (ReaderOp.runCycle g env now)) this hrest

theorem failed_monotone_without_close_witness :
    (applyOps failedStatReader
        [ReaderOp.runCycle (fun _ => Except.ok []) (fun _ => OpenResult.ok "") 3]).failed
      = true := by
  refine failed_monotone_without_close failedStatReader _ rfl ?_
  intro op hop
  rcases List.mem_singleton.mp hop with h
  subst h
  rfl

/-- C3, counterexample: a configuration supplying both a commandline pattern
and a pid is accepted by `_initialize`; no configuration error is raised. -/
theorem both_modes_accepted_counterexample :
    monitorInitialize
        { id := some "tomcat", commandline := some "java.*tomcat", pid := some "1234" } =
      Except.ok
        { monitorId := "tomcat", commandlineMatcher := some "java.*tomcat",
          targetPid := some "1234", pid := none, gathers := [] } := rfl

/-- C3, amended: with the required `id` supplied, monitor construction raises
a fatal configuration error iff neither the explicit process id nor the
command-line pattern is supplied; a configuration supplying both is accepted
(the commandline matcher then takes precedence during selection). -/
theorem initialize_error_iff_neither_target (idv : String) (cl pid : Option String) :
    monitorInitialize { id := some idv, commandline := cl, pid := pid } =
        Except.error ConfigError.badMonitorConfiguration ↔
      (cl = none ∧ pid = none) := by
  rcases cl with _ | c <;> rcases pid with _ | p <;> simp [monitorInitialize]

theorem initialize_error_iff_neither_target_witness :
    monitorInitialize { id := some "a", commandline := none, pid := none } =
      Except.error ConfigError.badMonitorConfiguration :=
  (initialize_error_iff_neither_target "a" none none).mpr ⟨rfl, rfl⟩

/-- C5: for a reader whose failed flag is true, `run_single_cycle` only
records the timestamp and returns: the result is independent of the file
system and the gather function, no metric and no log message is produced, no
exception is raised, and the state (failed flag included) is otherwise
unchanged. -/
theorem run_single_cycle_failed_noop (g : String → Except PyErr (List Metric))
    (env : String → OpenResult) (now : Nat) (st : ReaderState)
    (h : st.failed = true) :
    runSingleCycle g env now st =
      ⟨{ st with timestamp := some now }, [], [], none⟩ := by
  simp [runSingleCycle, h]

theorem run_single_cycle_failed_noop_witness :
    runSingleCycle (fun _ => Except.ok []) (fun _ => OpenResult.err 5) 7 failedStatReader =
      ⟨{ failedStatReader with timestamp := some 7 }, [], [], none⟩ :=
  run_single_cycle_failed_noop _ _ 7 failedStatReader rfl

/-- C9: for a reader whose failed flag is true, `run_single_cycle` modifies
only the last-collection timestamp (always overwritten with the current
time); the failed flag, the file handle, the pid, the monitor id and the path
pattern are unchanged and no metric is emitted. -/
theorem run_single_cycle_failed_frame (g : String → Except PyErr (List Metric))
    (env : String → OpenResult) (now : Nat) (st : ReaderState)
    (h : st.failed = true) :
    (runSingleCycle g env now st).st.failed = st.failed ∧
    (runSingleCycle g env now st).st.file = st.file ∧
    (runSingleCycle g env now st).st.pid = st.pid ∧
    (runSingleCycle g env now st).st.monitorId = st.monitorId ∧
    (runSingleCycle g env now st).st.filePattern = st.filePattern ∧
    (runSingleCycle g env now st).st.timestamp = some now ∧
    (runSingleCycle g env now st).metrics = [] := by
  simp [runSingleCycle, h]

theorem run_single_cycle_failed_frame_witness :
    (runSingleCycle (fun _ => Except.ok []) (fun _ => OpenResult.ok "x") 9
        failedStatReader).st.failed = failedStatReader.failed :=
  (run_single_cycle_failed_frame _ _ 9 failedStatReader rfl).1

/-- C6: the liveness check reports true on a successful probe, false exactly
on errno 3 (no such process), and true on every other probe error including
permission denied (errno 1/13); consequently, for a bound pid whose probe
fails with an errno other than 3, the rebinding phase of the collection cycle
leaves the monitor state untouched: no unbind and no rebind. -/
theorem is_running_outcomes_no_rebind :
    (isRunning KillResult.ok = true) ∧
    (isRunning (KillResult.err 3) = false) ∧
    (∀ n : Nat, n ≠ 3 → isRunning (KillResult.err n) = true) ∧
    (∀ (probe : Int → KillResult) (selected : Option Int) (ms : MonitorState)
       (p : Int) (n : Nat),
       ms.pid = some p → probe p = KillResult.err n → n ≠ 3 →
       monitorRebindPhase probe selected ms = ms) := by
  refine ⟨rfl, rfl, ?_, ?_⟩
  · intro n hn
    simp [isRunning, hn]
  · intro probe selected ms p n hp hprobe hn
    simp [monitorRebindPhase, hp, hprobe, isRunning, hn]

theorem is_running_outcomes_no_rebind_witness :
    monitorRebindPhase (fun _ => KillResult.err 13) none boundMonitor = boundMonitor :=
  is_running_outcomes_no_rebind.2.2.2 (fun _ => KillResult.err 13) none boundMonitor
    42 13 rfl rfl (by decide)

/-- C7: in explicit-id mode (`commandline` absent), selection returns the
target pid exactly when the `os.kill(pid, 0)` probe raises no error, and
returns `None` without raising whenever the probe fails for any reason
(permission denied included); the sentinel target `"$$"` is resolved to the
agent's own pid at match time and then treated the same way. -/
theorem select_process_explicit_probe
    (reMatch : String → String → Bool) (table : List (Int × String))
    (ownPid : Int) (probe : Int → KillResult) :
    (∀ (tp : String) (p : Int), tp ≠ "$$" → parsePyInt tp.data = Except.ok p →
       selectProcess none (some tp) reMatch table ownPid probe =
         Except.ok (match probe p with
           | KillResult.ok => some p
           | KillResult.err _ => none)) ∧
    (selectProcess none (some "$$") reMatch table ownPid probe =
       Except.ok (match probe ownPid with
         | KillResult.ok => some ownPid
         | KillResult.err _ => none)) := by
  constructor
  · intro tp p htp hp
    simp [selectProcess, htp, hp]
    cases probe p <;> simp
  · simp [selectProcess]
    cases probe ownPid <;> simp

theorem select_process_explicit_probe_witness :
    selectProcess none (some "42") (fun _ _ => false) [] 7
        (fun _ => KillResult.err 13) = Except.ok none := by
  have h := (select_process_explicit_probe (fun _ _ => false) [] 7
      (fun _ => KillResult.err 13)).1 "42" 42 (by decide) rfl
  simpa using h

/-- A concrete reader that has just been constructed for pid 42. -/
def freshStatReader : ReaderState := initReader 42 "agent" "/proc/%ld/stat"

/-- C4: for a reader with `failed = False` and no open handle whose open
fails, errno 13 (permission denied) and errno 2 (not found) each set
`failed`, log exactly one operator-facing error message, emit no metric and
raise nothing; any other errno propagates as the raised exception and leaves
`failed` false. -/
theorem run_single_cycle_open_error_behavior (g : String → Except PyErr (List Metric))
    (env : String → OpenResult) (now : Nat) (st : ReaderState) (n : Nat)
    (hf : st.failed = false) (hfile : st.file = none)
    (henv : env (pyFormat st.filePattern st.pid) = OpenResult.err n) :
    ((n = 13 ∨ n = 2) →
       (runSingleCycle g env now st).raised = none ∧
       (runSingleCycle g env now st).st.failed = true ∧
       (runSingleCycle g env now st).logs.length = 1 ∧
       (runSingleCycle g env now st).metrics = []) ∧
    (n ≠ 13 → n ≠ 2 →
       (runSingleCycle g env now st).raised = some (PyErr.ioError n) ∧
       (runSingleCycle g env now st).st.failed = false ∧
       (runSingleCycle g env now st).logs = [] ∧
       (runSingleCycle g env now st).metrics = []) := by
  constructor
  · rintro (rfl | rfl) <;> simp [runSingleCycle, hf, hfile, henv]
  · intro h13 h2
    simp [runSingleCycle, hf, hfile, henv, h13, h2]

theorem run_single_cycle_open_error_behavior_witness :
    (runSingleCycle (fun _ => Except.ok []) (fun _ => OpenResult.err 13) 7
        freshStatReader).st.failed = true :=
  ((run_single_cycle_open_error_behavior (fun _ => Except.ok [])
      (fun _ => OpenResult.err 13) 7 freshStatReader 13 rfl rfl rfl).1 (Or.inl rfl)).2.1

theorem findSub_neg_or_nonneg (pat : List Char) (s : List Char) :
    findSub pat s = -1 ∨ 0 ≤ findSub pat s := by
  induction s with
  | nil =>
      by_cases h : headIsPat pat [] = true <;> simp [findSub, h]
  | cons c rest ih =>
      by_cases h : headIsPat pat (c :: rest) = true
      · right; simp [findSub, h]
      · rcases ih with h1 | h1
        · left; simp [findSub, h, h1]
        · right; simp [findSub, h]
          rcases Int.lt_or_lt_of_ne (a := findSub pat rest) (b := -1) (by omega) with h2 | h2
          · omega
          · split <;> omega

/-- Prepending a character commutes with the `") "` head test across the
separator: the appended `")"` cannot complete a match whose `")"` lies in
`c :: pre`, because the character after it would have to be both `")"` and
`" "`. -/
theorem headIsPat_paren_extend (c : Char) (pre rest : List Char) :
    headIsPat statParenPat (c :: (pre ++ ')' :: ' ' :: rest)) =
      headIsPat statParenPat (c :: pre) := by
  cases pre with
  | nil => simp [statParenPat, headIsPat]
  | cons d t => simp [statParenPat, headIsPat]

/-- If `") "` does not occur in `pre`, its first occurrence in
`pre ++ ") " ++ rest` is exactly at position `pre.length`. -/
theorem findSub_append_parenPat (pre rest : List Char)
    (hpre : findSub statParenPat pre = -1) :
    findSub statParenPat (pre ++ ')' :: ' ' :: rest) = (pre.length : Int) := by
  induction pre with
  | nil =>
      simp [findSub, statParenPat, headIsPat]
  | cons c pre ih =>
      have hsplit : headIsPat statParenPat (c :: pre) = false ∧
          findSub statParenPat pre = -1 := by
        by_cases h : headIsPat statParenPat (c :: pre) = true
        · exfalso
          simp [findSub, h] at hpre
        · refine ⟨by simpa using h, ?_⟩
          rcases findSub_neg_or_nonneg statParenPat pre with h1 | h1
          · exact h1
          · exfalso
            simp [findSub, h] at hpre
            have := hpre (by omega)
            omega
      have hext : headIsPat statParenPat (c :: (pre ++ ')' :: ' ' :: rest)) = false := by
        rw [headIsPat_paren_extend]
        exact hsplit.1
      have hrec := ih hsplit.2
      show findSub statParenPat (c :: (pre ++ ')' :: ' ' :: rest)) = _
      simp [findSub, hext, hrec]

/-- Chopping `line[(line.find(") ") + 2):]` applied to a line whose first `") "`
follows `pre`: everything through that separator is dropped. -/
theorem chop_of_first_paren (pre rest : List Char)
    (hpre : findSub statParenPat pre = -1) :
    pySliceFrom (pre ++ ')' :: ' ' :: rest)
        (findSub statParenPat (pre ++ ')' :: ' ' :: rest) + 2) = rest := by
  rw [findSub_append_parenPat pre rest hpre]
  have hnn : (0 : Int) ≤ (pre.length : Int) + 2 := by positivity
  have htn : ((pre.length : Int) + 2).toNat = (pre ++ [')', ' ']).length := by
    simp [List.length_append]
    omega
  rw [pySliceFrom, if_pos hnn, htn]
  have hassoc : pre ++ ')' :: ' ' :: rest = (pre ++ [')', ' ']) ++ rest := by simp
  rw [hassoc, List.drop_left]

@[simp] theorem pyIndex_cons_zero {α : Type} (x : α) (l : List α) :
    pyIndex (x :: l) 0 = Except.ok x := rfl

/-- The integer parsed from field `i`, as the stat gatherer reads it:
`int(fields[i])` with an `IndexError` or `ValueError` propagating. -/
def tokenInt (fields : List (List Char)) (i : Nat) : Except PyErr Int :=
  pyBind (pyIndex fields i) parsePyInt

theorem pyBind_token {β : Type} (fields : List (List Char)) (i : Nat) (v : Int)
    (h : tokenInt fields i = Except.ok v) (f : Int → Except PyErr β) :
    (pyBind (pyIndex fields i) fun tok => pyBind (parsePyInt tok) f) = f v := by
  rw [tokenInt] at h
  cases hi : pyIndex fields i with
  | ok tok =>
      rw [hi, pyBind_ok] at h
      simp only [pyBind_ok, h]
  | error e =>
      rw [hi, pyBind_error] at h
      exact absurd h (by simp)

/-- C8: on a well-formed single-line stat record — the line is
`pre ++ ") " ++ rest` with no earlier `") "` occurrence — the parser drops
everything through that first `") "`, splits the remainder on whitespace, and
emits user CPU centiseconds from field 11, system CPU centiseconds from
field 12, the uptime metric computed from field 19 as start-time ticks, nice
as a float from field 16 and the thread count from field 17. -/
theorem stat_gather_fixed_fields (jps uptimeMs : Int) (appId : String)
    (contents : String) (pre rest : List Char) (fields : List (List Char))
    (u s startTicks nice threads : Int)
    (hline : pyReadlines contents = [pre ++ ')' :: ' ' :: rest])
    (hpre : findSub statParenPat pre = -1)
    (hfields : pySplit rest = fields)
    (h11 : tokenInt fields 11 = Except.ok u)
    (h12 : tokenInt fields 12 = Except.ok s)
    (h19 : tokenInt fields 19 = Except.ok startTicks)
    (h16 : tokenInt fields 16 = Except.ok nice)
    (h17 : tokenInt fields 17 = Except.ok threads) :
    statGatherSample jps uptimeMs appId contents =
      Except.ok
        [ ⟨"app.cpu", MValue.mInt (calculate_time_cs jps u), appId, some "user"⟩,
          ⟨"app.cpu", MValue.mInt (calculate_time_cs jps s), appId, some "system"⟩,
          ⟨"app.uptime", MValue.mInt (uptimeMs - calculate_time_ms jps startTicks),
            appId, none⟩,
          ⟨"app.nice", MValue.mFloat nice, appId, none⟩,
          ⟨"app.threads", MValue.mInt threads, appId, none⟩ ] := by
  simp only [statGatherSample, hline, pyIndex_cons_zero, pyBind_ok]
  rw [chop_of_first_paren pre rest hpre, hfields]
  rw [pyBind_token fields 11 u h11, pyBind_token fields 12 s h12,
      pyBind_token fields 19 startTicks h19, pyBind_token fields 16 nice h16,
      pyBind_token fields 17 threads h17]

/-- The sample stat line used to exercise the stat parser: the process name
itself contains a space and a parenthesis. -/
def sampleStatLine : String :=
  "77 (cat (x foo) S 1 2 3 4 5 6 7 8 9 10 25 13 0 0 20 5 4 0 7\n"

theorem stat_gather_fixed_fields_witness :
    statGatherSample 100 99999 "agent" sampleStatLine =
      Except.ok
        [ ⟨"app.cpu", MValue.mInt (calculate_time_cs 100 25), "agent", some "user"⟩,
          ⟨"app.cpu", MValue.mInt (calculate_time_cs 100 13), "agent", some "system"⟩,
          ⟨"app.uptime", MValue.mInt (99999 - calculate_time_ms 100 7), "agent", none⟩,
          ⟨"app.nice", MValue.mFloat 5, "agent", none⟩,
          ⟨"app.threads", MValue.mInt 4, "agent", none⟩ ] := by
  exact stat_gather_fixed_fields 100 99999 "agent" sampleStatLine
    "77 (cat (x foo".data "S 1 2 3 4 5 6 7 8 9 10 25 13 0 0 20 5 4 0 7\n".data
    (pySplit "S 1 2 3 4 5 6 7 8 9 10 25 13 0 0 20 5 4 0 7\n".data)
    25 13 7 5 4 rfl rfl rfl rfl rfl rfl rfl rfl

theorem ioLine_ok_length (appId : String) (x : List Char) (h : ioLineOk x = true) :
    ∃ ms, ioLine appId x = Except.ok ms ∧
      ms.length = (if ioRecognized x then 1 else 0) := by
  have ne21 : "syscr:".data ≠ "rchar:".data := by decide
  have ne31 : "wchar:".data ≠ "rchar:".data := by decide
  have ne32 : "wchar:".data ≠ "syscr:".data := by decide
  have ne41 : "syscw:".data ≠ "rchar:".data := by decide
  have ne42 : "syscw:".data ≠ "syscr:".data := by decide
  have ne43 : "syscw:".data ≠ "wchar:".data := by decide
  cases hs : pySplit x with
  | nil =>
      rw [ioLineOk, hs] at h
      simp at h
  | cons f0 rest =>
      cases rest with
      | nil =>
          simp only [ioLineOk, hs] at h
          by_cases hkey : f0 = "rchar:".data ∨ f0 = "syscr:".data ∨
              f0 = "wchar:".data ∨ f0 = "syscw:".data
          · rw [if_pos hkey] at h
            exact absurd h (by simp)
          · push_neg at hkey
            obtain ⟨hk1, hk2, hk3, hk4⟩ := hkey
            simp [ioLine, ioRecognized, hs, pyIndex, hk1, hk2, hk3, hk4]
      | cons f1 t =>
          simp only [ioLineOk, hs] at h
          by_cases hkey : f0 = "rchar:".data ∨ f0 = "syscr:".data ∨
              f0 = "wchar:".data ∨ f0 = "syscw:".data
          · rw [if_pos hkey] at h
            cases hp : parsePyInt f1 with
            | error e =>
                rw [hp] at h
                exact Bool.noConfusion h
            | ok v =>
                rcases hkey with h0 | h0 | h0 | h0 <;> subst h0 <;>
                  simp [ioLine, ioRecognized, hs, hp, pyIndex,
                    ne21, ne31, ne32, ne41, ne42, ne43]
          · push_neg at hkey
            obtain ⟨hk1, hk2, hk3, hk4⟩ := hkey
            simp [ioLine, ioRecognized, hs, pyIndex, hk1, hk2, hk3, hk4]

theorem ioGatherLines_ok (appId : String) (ls : List (List Char))
    (hok : ∀ x ∈ ls, ioLineOk x = true) :
    ∃ ms, ioGatherLines appId ls = Except.ok ms ∧
      ms.length = (ls.filter ioRecognized).length := by
  induction ls with
  | nil => exact ⟨[], rfl, rfl⟩
  | cons x rest ih =>
      obtain ⟨ms1, h1, hl1⟩ := ioLine_ok_length appId x (hok x (List.mem_cons_self x rest))
      obtain ⟨ms2, h2, hl2⟩ := ih (fun y hy => hok y (List.mem_cons_of_mem x hy))
      refine ⟨ms1 ++ ms2, ?_, ?_⟩
      · rw [ioGatherLines, h1, pyBind_ok, h2, pyBind_ok]
      · by_cases hr : ioRecognized x = true <;>
          (simp [List.filter_cons, hr, hl1, hl2]; try omega)

/-- C10, counterexample: the single-line input `"rchar:"` gives every line a
first (non-whitespace) token, yet the io parser raises `IndexError` at the
unguarded access to the second token, so parsing is not free of
out-of-bounds accesses on such inputs. -/
theorem io_gather_counterexample :
    pySplit "rchar:".data ≠ [] ∧
      ioGatherSample "agent" "rchar:" = Except.error PyErr.indexError := by
  constructor
  · decide
  · rfl

/-- C10, amended: the io parser indexes the first token of every line without
a guard.  For every input in which each line has a first token and each line
whose first token is one of `"rchar:"`, `"syscr:"`, `"wchar:"`, `"syscw:"`
also has a second token parsing as an integer, parsing performs no
out-of-bounds access and emits exactly one metric per recognized line; the
out-of-bounds branch of the first-token access is reachable: a
whitespace-only line raises `IndexError`. -/
theorem io_gather_token_guard (appId : String) (contents : String)
    (hok : ∀ x ∈ pyReadlines contents, ioLineOk x = true) :
    (∃ ms, ioGatherSample appId contents = Except.ok ms ∧
       ms.length = ((pyReadlines contents).filter ioRecognized).length) ∧
    ioGatherSample appId "\n" = Except.error PyErr.indexError := by
  refine ⟨?_, rfl⟩
  rw [ioGatherSample]
  exact ioGatherLines_ok appId (pyReadlines contents) hok

/-- The sample io file contents: the four recognized keys and one ignored
one. -/
def sampleIoContents : String :=
  "rchar: 500\nsyscr: 2\nwchar: 100\nsyscw: 1\ncancelled_write_bytes: 0\n"

theorem io_gather_token_guard_witness :
    ∃ ms, ioGatherSample "agent" sampleIoContents = Except.ok ms ∧
      ms.length = ((pyReadlines sampleIoContents).filter ioRecognized).length :=
  (io_gather_token_guard "agent" sampleIoContents (by decide)).1

end LinuxProcessMetrics
